import Mathlib

/-!
Verification development for the BRAW frame/metadata extractor
(`src/server/braw-extract.cpp`, `src/server/braw-extractor.cpp`,
`src/server/native/braw_addon.cpp`).

The three C++ sources are near-duplicate variants of one orchestration
pattern over the Blackmagic RAW SDK.  The SDK itself is an external
collaborator: its calls are modelled by environment records that fix the
status (`S_OK` vs failure) and payload each call returns.  Machine
arithmetic that matters (the `unsigned int` pixel loop, the
`(long)frame_count` cast, the `width*height*4` buffer size) is modelled
with explicit `% 2 ^ 32` / `% 2 ^ 64` wrap on `Nat`/`Int`.  The C `float`
values (frame rate, duration) are modelled as exact rationals, with
`none` marking the non-finite value produced by IEEE division when the
frame rate is zero.
-/

namespace Braw

/-- HRESULT values: the sources only ever compare against `S_OK`, so we
model the status domain as ok / fail. -/
inductive HResult
  | ok
  | fail
deriving DecidableEq, Repr

/-- BlackmagicRawResourceType: the sources only compare against
`blackmagicRawResourceTypeBufferCPU`; every other value is `other`. -/
inductive ResourceType
  | bufferCPU
  | other
deriving DecidableEq, Repr

/-- Observable events on SDK resources and pipeline jobs, recorded as a
trace by the embedded functions.  Job events model calls on
`IBlackmagicRawJob`; the acquire/release events model the
factory/codec/clip handles of `extract_metadata`. -/
inductive Ev
  | createReadJob
  | submitReadJob
  | createDecodeJob
  | submitDecodeJob
  | releaseDecodeJob
  | releaseReadJob
  | releaseProcessJob
  | addRefImage (id : Nat)
  | releaseImage (id : Nat)
  | acquireFactory
  | acquireCodec
  | acquireClip
  | releaseFactory
  | releaseCodec
  | releaseClip
deriving DecidableEq, Repr

/-- Model of an `IBlackmagicRawProcessedImage`: an identity for the
underlying refcounted resource, the declared dimensions (`GetWidth` /
`GetHeight`), the storage location (`GetResourceType`), and the
`GetResource` call's status together with the bytes behind the returned
pointer (`none` models a null pointer). -/
structure ProcessedImage where
  id : Nat
  width : Nat
  height : Nat
  resourceType : ResourceType
  getResourceStatus : HResult
  resourceData : Option (List Nat)
deriving DecidableEq, Repr

/-- Completion-sink state of the `BRAWCallback` class shared by
`braw-extract.cpp` (lines 24-32) and `braw_addon.cpp` (lines 20-28):
the captured processed image and the error flag. -/
structure Sink where
  processed_image : Option ProcessedImage
  error_occurred : Bool
deriving DecidableEq, Repr

/-- Failure stages of a run, one per distinct error exit of the sources.
The constructor names follow the spec's taxonomy; each corresponds to
exactly one error message in the code:
`FactoryUnavailable` = "Failed to create factory",
`CodecCreateFailed` = "Failed to create codec",
`ClipOpenFailed` = "Failed to open clip",
`FrameIndexOutOfRange` = "Frame index out of range",
`SetCallbackFailed` = "Failed to set callback",
`ReadJobCreateFailed` = "Failed to create read job",
`ReadFailed` = "Failed to submit job" (read-job submission failure,
which the spec maps to `Failed{ReadFailed}`),
`ProcessFailed` = "Processing error occurred" (the `error_occurred`
flag of the sink),
`UnsupportedResourceLocation` = "Unexpected resource type",
`ResourceUnavailable` = "No processed image received" and
"Failed to get image data".
`FlushFailed` = "FlushJobs failed" (only `braw-extract.cpp` checks the
drain's own result, lines 277-283) and
`WriteFailed` = "Failed to write output file" (only `braw-extract.cpp`
hands the decoded buffer to the PPM adapter, lines 333-339).
`FormatConfigFailed` and `DecodeSubmitFailed` are stages of the spec's
taxonomy; no code path of the sources produces them (those failures all
fold into the `error_occurred` flag, hence into `ProcessFailed`). -/
inductive Stage
  | FactoryUnavailable
  | CodecCreateFailed
  | ClipOpenFailed
  | FrameIndexOutOfRange
  | SetCallbackFailed
  | ReadJobCreateFailed
  | ReadFailed
  | FormatConfigFailed
  | DecodeSubmitFailed
  | ProcessFailed
  | UnsupportedResourceLocation
  | ResourceUnavailable
  | FlushFailed
  | WriteFailed
deriving DecidableEq, Repr

/-- Outcome of one frame-extraction run: a decoded pixel buffer or a
typed failure. -/
inductive Outcome
  | decoded (width height : Nat) (pixels : List Nat)
  | failed (stage : Stage)
deriving DecidableEq, Repr

/-- Bytes copied out of the processed image on success, mirroring
`size_t bufferSize = width * height * 4` in `braw_addon.cpp` line 314:
the multiplication is done on `unsigned int`, so it wraps at `2 ^ 32`
before widening to `size_t`. -/
def copyPixels (width height : Nat) (data : List Nat) : List Nat :=
  data.take (width * height * 4 % 2 ^ 32)

/-- Post-drain inspection of the sink, embedding `braw_addon.cpp` lines
267-322 (and identically `braw-extract.cpp` lines 285-330): check the
error flag, then the captured image, then the resource type, then the
`GetResource` status / pointer, else copy the bytes out. -/
def resolveSink (s : Sink) : Outcome :=
  if s.error_occurred then Outcome.failed Stage.ProcessFailed
  else
    match s.processed_image with
    | none => Outcome.failed Stage.ResourceUnavailable
    | some img =>
      if img.resourceType ≠ ResourceType.bufferCPU then
        Outcome.failed Stage.UnsupportedResourceLocation
      else
        match img.getResourceStatus, img.resourceData with
        | HResult.ok, some data =>
            Outcome.decoded img.width img.height (copyPixels img.width img.height data)
        | _, _ => Outcome.failed Stage.ResourceUnavailable

/-- Environment of one `ReadComplete` invocation: the `result` argument
the pipeline passes in, and the statuses returned by the three SDK calls
the callback may make (`SetResourceFormat`,
`CreateJobDecodeAndProcessFrame`, `Submit`).  Per COM convention the
decode-job out-parameter is non-null exactly when creation returns ok. -/
structure ReadEnv where
  readStatus : HResult
  setFormatStatus : HResult
  createDecodeStatus : HResult
  submitDecodeStatus : HResult
deriving DecidableEq, Repr

namespace BrawAddon

/-- `BRAWCallback::ReadComplete` of `braw_addon.cpp` lines 30-51: a
chained `if (result == S_OK)` sequence; on any failure the error flag is
set and a created decode job is released; the read job is released last
on every path.  `r1` is `result` after the `SetResourceFormat` step,
`r2` after job creation, `r3` after `Submit`. -/
def ReadComplete (env : ReadEnv) (s : Sink) : Sink × List Ev :=
  let r1 := if env.readStatus = HResult.ok then env.setFormatStatus else env.readStatus
  let r2 := if r1 = HResult.ok then env.createDecodeStatus else r1
  let evCreated : List Ev := if r2 = HResult.ok then [Ev.createDecodeJob, Ev.submitDecodeJob] else []
  let r3 := if r2 = HResult.ok then env.submitDecodeStatus else r2
  if r3 = HResult.ok then (s, evCreated ++ [Ev.releaseReadJob])
  else
    ({ s with error_occurred := true },
      evCreated ++ (if r2 = HResult.ok then [Ev.releaseDecodeJob] else []) ++ [Ev.releaseReadJob])

end BrawAddon

namespace BrawCli

/-- `BRAWCallback::ReadComplete` of `braw-extract.cpp` lines 34-71:
early-return style.  Each failing step sets the error flag and releases
the read job; after a successful creation `Submit` is called, a submit
failure only sets the flag, and both the decode job and the read job are
released at the end. -/
def ReadComplete (env : ReadEnv) (s : Sink) : Sink × List Ev :=
  if env.readStatus ≠ HResult.ok then
    ({ s with error_occurred := true }, [Ev.releaseReadJob])
  else if env.setFormatStatus ≠ HResult.ok then
    ({ s with error_occurred := true }, [Ev.releaseReadJob])
  else if env.createDecodeStatus ≠ HResult.ok then
    ({ s with error_occurred := true }, [Ev.releaseReadJob])
  else
    ((if env.submitDecodeStatus ≠ HResult.ok then { s with error_occurred := true } else s),
      [Ev.createDecodeJob, Ev.submitDecodeJob, Ev.releaseDecodeJob, Ev.releaseReadJob])

end BrawCli

namespace BrawExtractor

/-- `CameraCodecCallback::ReadComplete` of `braw-extractor.cpp` lines
58-78: same chained control flow as the addon variant, but the class has
no error flag, so only the job trace is observable. -/
def ReadComplete (env : ReadEnv) : List Ev :=
  let r1 := if env.readStatus = HResult.ok then env.setFormatStatus else env.readStatus
  let r2 := if r1 = HResult.ok then env.createDecodeStatus else r1
  let evCreated : List Ev := if r2 = HResult.ok then [Ev.createDecodeJob, Ev.submitDecodeJob] else []
  let r3 := if r2 = HResult.ok then env.submitDecodeStatus else r2
  evCreated ++ (if r3 ≠ HResult.ok ∧ r2 = HResult.ok then [Ev.releaseDecodeJob] else [])
    ++ [Ev.releaseReadJob]

end BrawExtractor

namespace BRAWCallback

/-- `BRAWCallback::ProcessComplete`, identical in `braw-extract.cpp`
lines 73-90 and `braw_addon.cpp` lines 53-69: on failure set the error
flag and release the job; on success release the previously held image
(if any), store the new one, `AddRef` it, and release the job. -/
def ProcessComplete (result : HResult) (img : ProcessedImage) (s : Sink) : Sink × List Ev :=
  if result ≠ HResult.ok then
    ({ s with error_occurred := true }, [Ev.releaseProcessJob])
  else
    ({ processed_image := some img, error_occurred := s.error_occurred },
      (match s.processed_image with
       | some old => [Ev.releaseImage old.id]
       | none => []) ++ [Ev.addRefImage img.id, Ev.releaseProcessJob])

/-- `BRAWCallback::~BRAWCallback`, identical in `braw-extract.cpp` lines
25-29 and `braw_addon.cpp` lines 21-25: release the held image if any. -/
def destruct (s : Sink) : List Ev :=
  match s.processed_image with
  | some img => [Ev.releaseImage img.id]
  | none => []

end BRAWCallback

/-- Identifier of the image a sink currently holds, as a list (empty or
a singleton). -/
def heldIds (s : Sink) : List Nat :=
  match s.processed_image with
  | some img => [img.id]
  | none => []

/-- Image-release events of a trace, projected to the released ids. -/
def imageReleases (tr : List Ev) : List Nat :=
  tr.filterMap fun e =>
    match e with
    | Ev.releaseImage i => some i
    | _ => none

/-- Run a sequence of `ProcessComplete` invocations (each giving the
status argument and the image argument) against a sink, collecting the
trace. -/
def runProcessEvents : List (HResult × ProcessedImage) → Sink → Sink × List Ev
  | [], s => (s, [])
  | e :: rest, s =>
      let p := BRAWCallback.ProcessComplete e.1 e.2 s
      let q := runProcessEvents rest p.1
      (q.1, p.2 ++ q.2)

/-- Whole-session trace of the sink: a fresh sink receives the
`ProcessComplete` invocations and is then destroyed. -/
def sessionTrace (evs : List (HResult × ProcessedImage)) : List Ev :=
  let p := runProcessEvents evs { processed_image := none, error_occurred := false }
  p.2 ++ BRAWCallback.destruct p.1

/-- Ids of the images the sink successfully captures over a sequence of
`ProcessComplete` invocations (the invocations whose status is ok). -/
def capturedIds (evs : List (HResult × ProcessedImage)) : List Nat :=
  evs.filterMap fun e => if e.1 = HResult.ok then some e.2.id else none

/-- Whether `ReadComplete` successfully submitted the decode job, hence
whether the pipeline will invoke `ProcessComplete` (the SDK invokes the
process-completion callback exactly once per accepted job, spec section
6). -/
def decodeSubmitted (e : ReadEnv) : Bool :=
  e.readStatus == HResult.ok && e.setFormatStatus == HResult.ok &&
  e.createDecodeStatus == HResult.ok && e.submitDecodeStatus == HResult.ok

/-- Environment of one full `ExtractFrame` run: statuses of the SDK
calls made on the main thread, the clip's reported frame count (a
`uint64_t` value), and the events delivered by the pipeline during
`FlushJobs` (the read-callback environment and the `ProcessComplete`
status and image). -/
structure FrameEnv where
  factoryOk : Bool
  codecStatus : HResult
  clipStatus : HResult
  frameCount : Nat
  setCallbackStatus : HResult
  createReadStatus : HResult
  submitReadStatus : HResult
  read : ReadEnv
  processStatus : HResult
  processImage : ProcessedImage
deriving DecidableEq, Repr

/-- Two's-complement reinterpretation of a `uint64_t` value as a signed
64-bit integer, modelling the `(long)frame_count` cast. -/
def int64wrap (n : Nat) : Int :=
  if n % 2 ^ 64 < 2 ^ 63 then ((n % 2 ^ 64 : Nat) : Int)
  else ((n % 2 ^ 64 : Nat) : Int) - 2 ^ 64

/-- Two's-complement reinterpretation of a `uint64_t` value as a signed
32-bit integer, modelling the `(int)frame_count` cast of
`braw-extract.cpp` line 233. -/
def int32wrap (n : Nat) : Int :=
  if n % 2 ^ 32 < 2 ^ 31 then ((n % 2 ^ 32 : Nat) : Int)
  else ((n % 2 ^ 32 : Nat) : Int) - 2 ^ 32

namespace BrawAddon

/-- Callback deliveries during `codec->FlushJobs()` for one submitted
read job: the pipeline invokes `ReadComplete` once, and invokes
`ProcessComplete` once exactly when the decode job was successfully
submitted from inside `ReadComplete`. -/
def runPipeline (env : FrameEnv) (s : Sink) : Sink × List Ev :=
  let p := ReadComplete env.read s
  if decodeSubmitted env.read then
    let q := BRAWCallback.ProcessComplete env.processStatus env.processImage p.1
    (q.1, p.2 ++ q.2)
  else p

/-- `ExtractFrame` of `braw_addon.cpp` lines 182-333 (after argument
validation): factory, codec, clip, frame-index check against
`(long)frame_count`, `SetCallback`, `CreateJobReadFrame`, `Submit`,
`FlushJobs` (whose own status the addon discards), then the post-drain
sink inspection of `resolveSink`.  The trace records the job events;
the clip/codec/factory are released unconditionally at the end and are
not traced here. -/
def ExtractFrame (env : FrameEnv) (frameIndex : Int) : Outcome × List Ev :=
  if env.factoryOk = false then (Outcome.failed Stage.FactoryUnavailable, [])
  else if env.codecStatus ≠ HResult.ok then (Outcome.failed Stage.CodecCreateFailed, [])
  else if env.clipStatus ≠ HResult.ok then (Outcome.failed Stage.ClipOpenFailed, [])
  else if frameIndex < 0 ∨ int64wrap env.frameCount ≤ frameIndex then
    (Outcome.failed Stage.FrameIndexOutOfRange, [])
  else if env.setCallbackStatus ≠ HResult.ok then (Outcome.failed Stage.SetCallbackFailed, [])
  else if env.createReadStatus ≠ HResult.ok then (Outcome.failed Stage.ReadJobCreateFailed, [])
  else if env.submitReadStatus ≠ HResult.ok then
    (Outcome.failed Stage.ReadFailed, [Ev.createReadJob, Ev.submitReadJob, Ev.releaseReadJob])
  else
    let p := runPipeline env { processed_image := none, error_occurred := false }
    (resolveSink p.1, [Ev.createReadJob, Ev.submitReadJob] ++ p.2)

end BrawAddon

/-- Environment of one `extract_metadata` run: the factory, codec and
clip call results, and the four scalar getters.  Each getter either
writes a value into its zero-initialized out-parameter (`some v`) or
fails and leaves the zero default (`none`); its returned status is never
inspected by the sources.  The `float` frame rate is modelled as an
exact rational. -/
structure MetaEnv where
  factoryOk : Bool
  codecStatus : HResult
  clipStatus : HResult
  frameCount : Option Nat
  width : Option Nat
  height : Option Nat
  frameRate : Option Rat
deriving DecidableEq, Repr

/-- Metadata record the query reports, mirroring the JSON object of
`extract_metadata` / the N-API object of `ExtractMetadata`. -/
structure Metadata where
  success : Bool
  frame_count : Nat
  width : Nat
  height : Nat
  frame_rate : Rat
  duration : Option Rat
deriving DecidableEq, Repr

/-- Model of the C `float` division `frame_count / frame_rate`: exact
rational quotient when the divisor is nonzero, `none` marking the
non-finite IEEE value (infinity for a nonzero numerator, NaN for 0/0)
when the frame rate is zero. -/
def floatDiv (fc : Nat) (fr : Rat) : Option Rat :=
  if fr = 0 then none else some ((fc : Rat) / fr)

/-- `extract_metadata` of `braw-extract.cpp` lines 129-187 (identically
`braw-extractor.cpp` lines 128-189 and `ExtractMetadata` of
`braw_addon.cpp` lines 100-173, whose do/while-plus-cleanup structure
releases the same handles in the same order): create the factory, the
codec, open the clip, read the four scalar properties with statuses
ignored, emit `success = true` with the derived duration, and release
every acquired handle on every path. -/
def extract_metadata (env : MetaEnv) : Except Stage Metadata × List Ev :=
  if env.factoryOk = false then (Except.error Stage.FactoryUnavailable, [])
  else if env.codecStatus ≠ HResult.ok then
    (Except.error Stage.CodecCreateFailed, [Ev.acquireFactory, Ev.releaseFactory])
  else if env.clipStatus ≠ HResult.ok then
    (Except.error Stage.ClipOpenFailed,
      [Ev.acquireFactory, Ev.acquireCodec, Ev.releaseCodec, Ev.releaseFactory])
  else
    (Except.ok
      { success := true
        frame_count := env.frameCount.getD 0
        width := env.width.getD 0
        height := env.height.getD 0
        frame_rate := env.frameRate.getD 0
        duration := floatDiv (env.frameCount.getD 0) (env.frameRate.getD 0) },
      [Ev.acquireFactory, Ev.acquireCodec, Ev.acquireClip,
       Ev.releaseClip, Ev.releaseCodec, Ev.releaseFactory])

/-- Concrete run environment in which every SDK call succeeds and the
pipeline delivers a 2x2 CPU image, used to instantiate theorems with
hypotheses. -/
def envAllOk : FrameEnv :=
  { factoryOk := true
    codecStatus := HResult.ok
    clipStatus := HResult.ok
    frameCount := 5
    setCallbackStatus := HResult.ok
    createReadStatus := HResult.ok
    submitReadStatus := HResult.ok
    read := { readStatus := HResult.ok, setFormatStatus := HResult.ok
              createDecodeStatus := HResult.ok, submitDecodeStatus := HResult.ok }
    processStatus := HResult.ok
    processImage :=
      { id := 7, width := 2, height := 2, resourceType := ResourceType.bufferCPU
        getResourceStatus := HResult.ok
        resourceData := some [1, 2, 3, 4, 5, 6, 7, 8, 9, 10, 11, 12, 13, 14, 15, 16] } }

/-- Same environment except that the read job completes with a failing
status. -/
def envReadFail : FrameEnv :=
  { envAllOk with
    read := { readStatus := HResult.fail, setFormatStatus := HResult.ok
              createDecodeStatus := HResult.ok, submitDecodeStatus := HResult.ok } }

/-- Same environment except that the decode-and-process job completes
with a failing status. -/
def envProcFail : FrameEnv :=
  { envAllOk with processStatus := HResult.fail }

/-- Concrete metadata environment in which every call succeeds. -/
def envMetaW : MetaEnv :=
  { factoryOk := true, codecStatus := HResult.ok, clipStatus := HResult.ok
    frameCount := some 10, width := some 1920, height := some 1080, frameRate := some 24 }

/-- Concrete metadata environment in which the factory cannot be
created. -/
def envMetaNoFactory : MetaEnv :=
  { envMetaW with factoryOk := false }

/-- Concrete metadata environment in which the clip opens but all four
scalar getters fail, leaving their zero-initialized out-parameters. -/
def envMetaGettersFail : MetaEnv :=
  { factoryOk := true, codecStatus := HResult.ok, clipStatus := HResult.ok
    frameCount := none, width := none, height := none, frameRate := none }

/-- Counts of acquire events matching release events for the three
handles of `extract_metadata`. -/
def releasesBalanced (tr : List Ev) : Prop :=
  tr.count Ev.acquireFactory = tr.count Ev.releaseFactory ∧
  tr.count Ev.acquireCodec = tr.count Ev.releaseCodec ∧
  tr.count Ev.acquireClip = tr.count Ev.releaseClip

instance (tr : List Ev) : Decidable (releasesBalanced tr) := by
  unfold releasesBalanced; infer_instance

/-- PPM header written by `write_ppm`: `"P6\n<width> <height>\n255\n"`. -/
def ppmHeader (width height : Nat) : String :=
  "P6\n" ++ toString width ++ " " ++ toString height ++ "\n255\n"

/-- Body loop of `write_ppm` (`braw-extract.cpp` lines 117-123,
`braw-extractor.cpp` lines 39-45): for each pixel index `i` below the
bound, put `rgba[i*4+0]`, `rgba[i*4+1]`, `rgba[i*4+2]`.  The buffer is a
function from byte offsets to bytes; the `i*4+c` offset expressions are
`unsigned int` arithmetic and wrap at `2 ^ 32`. -/
def ppmBody (data : Nat → Nat) : Nat → List Nat
  | 0 => []
  | i + 1 =>
      ppmBody data i ++
        [data ((i * 4 + 0) % 2 ^ 32), data ((i * 4 + 1) % 2 ^ 32), data ((i * 4 + 2) % 2 ^ 32)]

/-- `write_ppm` of `braw-extract.cpp` lines 105-127 (identically
`braw-extractor.cpp` lines 27-49): `none` when the output file cannot be
opened, otherwise the header plus the RGB body; the loop bound
`width * height` is an `unsigned int` product and wraps at `2 ^ 32`. -/
def write_ppm (openOk : Bool) (width height : Nat) (data : Nat → Nat) :
    Option (String × List Nat) :=
  if openOk = false then none
  else some (ppmHeader width height, ppmBody data (width * height % 2 ^ 32))

/-- Environment of one full CLI `extract_frame` run (`braw-extract.cpp`
lines 192-355): like `FrameEnv`, plus the status returned by
`codec->FlushJobs()` (which this variant checks, lines 277-283) and
whether the PPM adapter can open the output file (`write_ppm`). -/
structure CliEnv where
  factoryOk : Bool
  codecStatus : HResult
  clipStatus : HResult
  frameCount : Nat
  setCallbackStatus : HResult
  createReadStatus : HResult
  submitReadStatus : HResult
  flushStatus : HResult
  read : ReadEnv
  processStatus : HResult
  processImage : ProcessedImage
  writeOpenOk : Bool
deriving DecidableEq, Repr

namespace BrawCli

/-- Callback deliveries during `codec->FlushJobs()` for the CLI variant:
its `ReadComplete` runs once, and `ProcessComplete` runs once exactly
when the decode job was successfully submitted from inside it. -/
def runPipeline (env : CliEnv) (s : Sink) : Sink × List Ev :=
  let p := ReadComplete env.read s
  if decodeSubmitted env.read then
    let q := BRAWCallback.ProcessComplete env.processStatus env.processImage p.1
    (q.1, p.2 ++ q.2)
  else p

/-- Post-drain phase of the CLI `extract_frame` once `FlushJobs` has
reported success (`braw-extract.cpp` lines 285-339): inspect the error
flag, the captured image, the resource type and the `GetResource`
result exactly as the addon does, then hand the pixel pointer to
`write_ppm`; a failing write resolves the distinct "Failed to write
output file" outcome, otherwise the run reports the decoded
width/height (the bytes having been written by the adapter). -/
def resolveAfterFlush (env : CliEnv) (s : Sink) : Outcome :=
  if s.error_occurred then Outcome.failed Stage.ProcessFailed
  else
    match s.processed_image with
    | none => Outcome.failed Stage.ResourceUnavailable
    | some img =>
      if img.resourceType ≠ ResourceType.bufferCPU then
        Outcome.failed Stage.UnsupportedResourceLocation
      else
        match img.getResourceStatus, img.resourceData with
        | HResult.ok, some bytes =>
            if (write_ppm env.writeOpenOk img.width img.height fun k => bytes.getD k 0).isSome
            then Outcome.decoded img.width img.height bytes
            else Outcome.failed Stage.WriteFailed
        | _, _ => Outcome.failed Stage.ResourceUnavailable

/-- `extract_frame` of `braw-extract.cpp` lines 192-355: factory, codec,
clip, frame-index check against `(int)frame_count`, `SetCallback`,
`CreateJobReadFrame` (with null check), `Submit`, the main thread's own
`readJob->Release()` (line 273, in addition to the callback's release),
then `FlushJobs`.  Unlike the addon, a failing `FlushJobs` resolves
"FlushJobs failed" without inspecting the sink; otherwise the run
resolves through `resolveAfterFlush`.  The callbacks have already run
during the drain, so the pipeline trace is part of the run either
way. -/
def extract_frame (env : CliEnv) (frameIndex : Int) : Outcome × List Ev :=
  if env.factoryOk = false then (Outcome.failed Stage.FactoryUnavailable, [])
  else if env.codecStatus ≠ HResult.ok then (Outcome.failed Stage.CodecCreateFailed, [])
  else if env.clipStatus ≠ HResult.ok then (Outcome.failed Stage.ClipOpenFailed, [])
  else if frameIndex < 0 ∨ int32wrap env.frameCount ≤ frameIndex then
    (Outcome.failed Stage.FrameIndexOutOfRange, [])
  else if env.setCallbackStatus ≠ HResult.ok then (Outcome.failed Stage.SetCallbackFailed, [])
  else if env.createReadStatus ≠ HResult.ok then (Outcome.failed Stage.ReadJobCreateFailed, [])
  else if env.submitReadStatus ≠ HResult.ok then
    (Outcome.failed Stage.ReadFailed, [Ev.createReadJob, Ev.submitReadJob, Ev.releaseReadJob])
  else
    let p := runPipeline env { processed_image := none, error_occurred := false }
    let tr := [Ev.createReadJob, Ev.submitReadJob, Ev.releaseReadJob] ++ p.2
    if env.flushStatus ≠ HResult.ok then (Outcome.failed Stage.FlushFailed, tr)
    else (resolveAfterFlush env p.1, tr)

end BrawCli

/-- Whether an outcome is one of the five post-drain sink-inspection
outcomes the spec names: a decoded buffer, or a failure at one of the
stages `ProcessFailed`, `ResourceUnavailable` (covering both the
missing-image and the null-pointer checks) or
`UnsupportedResourceLocation`. -/
def sinkInspectionOutcome : Outcome → Bool
  | Outcome.decoded _ _ _ => true
  | Outcome.failed Stage.ProcessFailed => true
  | Outcome.failed Stage.ResourceUnavailable => true
  | Outcome.failed Stage.UnsupportedResourceLocation => true
  | _ => false

/-- Concrete CLI run environment in which every SDK call succeeds, the
pipeline delivers a 2x2 CPU image, and the output file opens. -/
def envCliAllOk : CliEnv :=
  { factoryOk := true
    codecStatus := HResult.ok
    clipStatus := HResult.ok
    frameCount := 5
    setCallbackStatus := HResult.ok
    createReadStatus := HResult.ok
    submitReadStatus := HResult.ok
    flushStatus := HResult.ok
    read := { readStatus := HResult.ok, setFormatStatus := HResult.ok
              createDecodeStatus := HResult.ok, submitDecodeStatus := HResult.ok }
    processStatus := HResult.ok
    processImage :=
      { id := 7, width := 2, height := 2, resourceType := ResourceType.bufferCPU
        getResourceStatus := HResult.ok
        resourceData := some [1, 2, 3, 4, 5, 6, 7, 8, 9, 10, 11, 12, 13, 14, 15, 16] }
    writeOpenOk := true }

/-- Same CLI environment except that `FlushJobs` itself reports a
failing status. -/
def envFlushFail : CliEnv :=
  { envCliAllOk with flushStatus := HResult.fail }

/-- Same CLI environment except that the PPM adapter cannot open the
output file. -/
def envWriteFail : CliEnv :=
  { envCliAllOk with writeOpenOk := false }

/-! ## Helper lemmas -/

theorem imageReleases_append (a b : List Ev) :
    imageReleases (a ++ b) = imageReleases a ++ imageReleases b := by
  simp [imageReleases, List.filterMap_append]

theorem runProcessEvents_releases (evs : List (HResult × ProcessedImage)) :
    ∀ s : Sink,
      imageReleases ((runProcessEvents evs s).2 ++ BRAWCallback.destruct (runProcessEvents evs s).1)
        = heldIds s ++ capturedIds evs := by
  induction evs with
  | nil =>
      intro s
      cases himg : s.processed_image <;>
        simp [runProcessEvents, capturedIds, imageReleases, BRAWCallback.destruct, heldIds, himg]
  | cons e rest ih =>
      intro s
      have hstep : runProcessEvents (e :: rest) s =
          ((runProcessEvents rest (BRAWCallback.ProcessComplete e.1 e.2 s).1).1,
            (BRAWCallback.ProcessComplete e.1 e.2 s).2 ++
              (runProcessEvents rest (BRAWCallback.ProcessComplete e.1 e.2 s).1).2) := rfl
      rw [hstep, List.append_assoc, imageReleases_append,
        ih (BRAWCallback.ProcessComplete e.1 e.2 s).1]
      by_cases he : e.1 = HResult.ok
      · cases himg : s.processed_image <;>
          simp [BRAWCallback.ProcessComplete, he, himg, heldIds, capturedIds, imageReleases,
            List.filterMap_cons]
      · cases himg : s.processed_image <;>
          simp [BRAWCallback.ProcessComplete, he, himg, heldIds, capturedIds, imageReleases,
            List.filterMap_cons]

/-! ## Claim theorems -/

/-- C3: in the read-completion callback, if any step fails (non-success
read status, `SetResourceFormat` failure, `CreateJobDecodeAndProcessFrame`
failure), the decode-and-process job is never submitted: no
`submitDecodeJob` event appears in the trace of any of the three
callback variants. -/
theorem c3_no_decode_submit_after_failure (env : ReadEnv) (s : Sink)
    (h : env.readStatus ≠ HResult.ok ∨ env.setFormatStatus ≠ HResult.ok ∨
      env.createDecodeStatus ≠ HResult.ok) :
    Ev.submitDecodeJob ∉ (BrawAddon.ReadComplete env s).2 ∧
    Ev.submitDecodeJob ∉ (BrawCli.ReadComplete env s).2 ∧
    Ev.submitDecodeJob ∉ BrawExtractor.ReadComplete env := by
  obtain ⟨r, f, c, sb⟩ := env
  cases r <;> cases f <;> cases c <;> cases sb <;>
    simp_all [BrawAddon.ReadComplete, BrawCli.ReadComplete, BrawExtractor.ReadComplete]

/-- Witness for C3: a concrete invocation whose read status fails. -/
theorem c3_no_decode_submit_after_failure_witness :
    Ev.submitDecodeJob ∉
        (BrawAddon.ReadComplete
          { readStatus := HResult.fail, setFormatStatus := HResult.ok
            createDecodeStatus := HResult.ok, submitDecodeStatus := HResult.ok }
          { processed_image := none, error_occurred := false }).2 ∧
    Ev.submitDecodeJob ∉
        (BrawCli.ReadComplete
          { readStatus := HResult.fail, setFormatStatus := HResult.ok
            createDecodeStatus := HResult.ok, submitDecodeStatus := HResult.ok }
          { processed_image := none, error_occurred := false }).2 ∧
    Ev.submitDecodeJob ∉
        BrawExtractor.ReadComplete
          { readStatus := HResult.fail, setFormatStatus := HResult.ok
            createDecodeStatus := HResult.ok, submitDecodeStatus := HResult.ok } :=
  c3_no_decode_submit_after_failure _ _ (Or.inl (by decide))

/-- C4: over any session (a fresh sink receiving an arbitrary sequence
of `ProcessComplete` invocations, then destroyed), the images released
are exactly the images successfully captured, each exactly once and in
order; and each successful invocation releases the previously held
image (if any) before storing and referencing the new one
(last-writer-wins). -/
theorem c4_image_released_exactly_once :
    (∀ evs : List (HResult × ProcessedImage),
      imageReleases (sessionTrace evs) = capturedIds evs) ∧
    (∀ (img : ProcessedImage) (s : Sink),
      BRAWCallback.ProcessComplete HResult.ok img s =
        ({ processed_image := some img, error_occurred := s.error_occurred },
          (heldIds s).map Ev.releaseImage ++ [Ev.addRefImage img.id, Ev.releaseProcessJob])) := by
  constructor
  · intro evs
    have h := runProcessEvents_releases evs { processed_image := none, error_occurred := false }
    simpa [sessionTrace, heldIds] using h
  · intro img s
    cases himg : s.processed_image <;>
      simp [BRAWCallback.ProcessComplete, heldIds, himg]

/-- C5: on every execution path of the read-completion callback, in each
of the three variants, the read job resource is released exactly once
before the callback returns. -/
theorem c5_read_job_released_once (env : ReadEnv) (s : Sink) :
    ((BrawAddon.ReadComplete env s).2).count Ev.releaseReadJob = 1 ∧
    ((BrawCli.ReadComplete env s).2).count Ev.releaseReadJob = 1 ∧
    (BrawExtractor.ReadComplete env).count Ev.releaseReadJob = 1 := by
  obtain ⟨r, f, c, sb⟩ := env
  cases r <;> cases f <;> cases c <;> cases sb <;>
    simp [BrawAddon.ReadComplete, BrawCli.ReadComplete, BrawExtractor.ReadComplete,
      List.count_cons, List.count_nil]

/-- Counterexample for C1 as stated: in the CLI variant
(`braw-extract.cpp` `extract_frame`, a cited source of the claim), a run
whose `FlushJobs` returns a failing status resolves the sixth outcome
"FlushJobs failed" after the drain returns, without inspecting the sink
— even though the sink of that very run holds a decodable image whose
inspection would have resolved `decoded`; and a run whose output file
cannot be opened resolves the seventh outcome "Failed to write output
file".  Neither outcome is among the five the claim allows. -/
theorem c1_five_outcomes_counterexample :
    (BrawCli.extract_frame envFlushFail 0).1 = Outcome.failed Stage.FlushFailed ∧
    sinkInspectionOutcome (BrawCli.extract_frame envFlushFail 0).1 = false ∧
    BrawCli.resolveAfterFlush envFlushFail
        (BrawCli.runPipeline envFlushFail
          { processed_image := none, error_occurred := false }).1 =
      Outcome.decoded 2 2 [1, 2, 3, 4, 5, 6, 7, 8, 9, 10, 11, 12, 13, 14, 15, 16] ∧
    (BrawCli.extract_frame envWriteFail 0).1 = Outcome.failed Stage.WriteFailed ∧
    sinkInspectionOutcome (BrawCli.extract_frame envWriteFail 0).1 = false := by
  decide

/-- C1 amended: after the drain (`FlushJobs`) returns, the operation
resolves by inspecting the sink in this exact order — unconditionally in
the addon variant, which discards the drain's status, and in the CLI
variant only when the drain itself reported success (a failing
`FlushJobs` there resolves a distinct `FlushFailed` outcome without
inspecting the sink): error flag set resolves `Failed ProcessFailed`; no
captured image resolves `Failed ResourceUnavailable`; a non-CPU storage
location resolves `Failed UnsupportedResourceLocation`; a failing
`GetResource` or null pixel pointer resolves
`Failed ResourceUnavailable`; otherwise the addon copies the bytes into
an owned buffer and resolves `decoded`, while the CLI hands them to the
PPM adapter, resolving `decoded` when the output file opens and a
distinct `WriteFailed` outcome otherwise.  Every run reaching the sink
inspection with a working adapter produces exactly one of the five
outcomes. -/
theorem c1_post_drain_resolution :
    (∀ (env : FrameEnv) (i : Int),
      env.factoryOk = true → env.codecStatus = HResult.ok → env.clipStatus = HResult.ok →
      ¬(i < 0 ∨ int64wrap env.frameCount ≤ i) →
      env.setCallbackStatus = HResult.ok → env.createReadStatus = HResult.ok →
      env.submitReadStatus = HResult.ok →
      (BrawAddon.ExtractFrame env i).1 =
        resolveSink
          (BrawAddon.runPipeline env { processed_image := none, error_occurred := false }).1) ∧
    (∀ s : Sink, s.error_occurred = true → resolveSink s = Outcome.failed Stage.ProcessFailed) ∧
    (∀ s : Sink, s.error_occurred = false → s.processed_image = none →
      resolveSink s = Outcome.failed Stage.ResourceUnavailable) ∧
    (∀ (s : Sink) (img : ProcessedImage), s.error_occurred = false →
      s.processed_image = some img → img.resourceType ≠ ResourceType.bufferCPU →
      resolveSink s = Outcome.failed Stage.UnsupportedResourceLocation) ∧
    (∀ (s : Sink) (img : ProcessedImage), s.error_occurred = false →
      s.processed_image = some img → img.resourceType = ResourceType.bufferCPU →
      (img.getResourceStatus ≠ HResult.ok ∨ img.resourceData = none) →
      resolveSink s = Outcome.failed Stage.ResourceUnavailable) ∧
    (∀ (s : Sink) (img : ProcessedImage) (bytes : List Nat), s.error_occurred = false →
      s.processed_image = some img → img.resourceType = ResourceType.bufferCPU →
      img.getResourceStatus = HResult.ok → img.resourceData = some bytes →
      resolveSink s = Outcome.decoded img.width img.height (copyPixels img.width img.height bytes)) ∧
    (∀ s : Sink,
      (∃ w h p, resolveSink s = Outcome.decoded w h p) ∨
      resolveSink s = Outcome.failed Stage.ProcessFailed ∨
      resolveSink s = Outcome.failed Stage.ResourceUnavailable ∨
      resolveSink s = Outcome.failed Stage.UnsupportedResourceLocation) ∧
    (∀ (env : CliEnv) (i : Int),
      env.factoryOk = true → env.codecStatus = HResult.ok → env.clipStatus = HResult.ok →
      ¬(i < 0 ∨ int32wrap env.frameCount ≤ i) →
      env.setCallbackStatus = HResult.ok → env.createReadStatus = HResult.ok →
      env.submitReadStatus = HResult.ok → env.flushStatus = HResult.ok →
      (BrawCli.extract_frame env i).1 =
        BrawCli.resolveAfterFlush env
          (BrawCli.runPipeline env { processed_image := none, error_occurred := false }).1) ∧
    (∀ (env : CliEnv) (i : Int),
      env.factoryOk = true → env.codecStatus = HResult.ok → env.clipStatus = HResult.ok →
      ¬(i < 0 ∨ int32wrap env.frameCount ≤ i) →
      env.setCallbackStatus = HResult.ok → env.createReadStatus = HResult.ok →
      env.submitReadStatus = HResult.ok → env.flushStatus ≠ HResult.ok →
      (BrawCli.extract_frame env i).1 = Outcome.failed Stage.FlushFailed) ∧
    (∀ (env : CliEnv) (s : Sink), s.error_occurred = true →
      BrawCli.resolveAfterFlush env s = Outcome.failed Stage.ProcessFailed) ∧
    (∀ (env : CliEnv) (s : Sink), s.error_occurred = false → s.processed_image = none →
      BrawCli.resolveAfterFlush env s = Outcome.failed Stage.ResourceUnavailable) ∧
    (∀ (env : CliEnv) (s : Sink) (img : ProcessedImage), s.error_occurred = false →
      s.processed_image = some img → img.resourceType ≠ ResourceType.bufferCPU →
      BrawCli.resolveAfterFlush env s = Outcome.failed Stage.UnsupportedResourceLocation) ∧
    (∀ (env : CliEnv) (s : Sink) (img : ProcessedImage), s.error_occurred = false →
      s.processed_image = some img → img.resourceType = ResourceType.bufferCPU →
      (img.getResourceStatus ≠ HResult.ok ∨ img.resourceData = none) →
      BrawCli.resolveAfterFlush env s = Outcome.failed Stage.ResourceUnavailable) ∧
    (∀ (env : CliEnv) (s : Sink) (img : ProcessedImage) (bytes : List Nat),
      s.error_occurred = false → s.processed_image = some img →
      img.resourceType = ResourceType.bufferCPU → img.getResourceStatus = HResult.ok →
      img.resourceData = some bytes → env.writeOpenOk = true →
      BrawCli.resolveAfterFlush env s = Outcome.decoded img.width img.height bytes) ∧
    (∀ (env : CliEnv) (s : Sink) (img : ProcessedImage) (bytes : List Nat),
      s.error_occurred = false → s.processed_image = some img →
      img.resourceType = ResourceType.bufferCPU → img.getResourceStatus = HResult.ok →
      img.resourceData = some bytes → env.writeOpenOk = false →
      BrawCli.resolveAfterFlush env s = Outcome.failed Stage.WriteFailed) ∧
    (∀ (env : CliEnv) (s : Sink), env.writeOpenOk = true →
      sinkInspectionOutcome (BrawCli.resolveAfterFlush env s) = true) := by
  refine ⟨?_, ?_, ?_, ?_, ?_, ?_, ?_, ?_, ?_, ?_, ?_, ?_, ?_, ?_, ?_, ?_⟩
  · intro env i hf hc hcl hidx hcb hcr hsr
    simp [BrawAddon.ExtractFrame, hf, hc, hcl, hcb, hcr, hsr, if_neg hidx]
  · intro s hs
    simp [resolveSink, hs]
  · intro s hs himg
    simp [resolveSink, hs, himg]
  · intro s img hs himg hty
    simp [resolveSink, hs, himg, hty]
  · intro s img hs himg hty hres
    rcases hres with hres | hres
    · cases hgr : img.getResourceStatus <;>
        simp_all [resolveSink]
    · cases hgr : img.getResourceStatus <;>
        simp_all [resolveSink]
  · intro s img bytes hs himg hty hgr hdata
    simp [resolveSink, hs, himg, hty, hgr, hdata]
  · intro s
    rcases hs : s.error_occurred with _ | _
    · rcases himg : s.processed_image with _ | img
      · simp [resolveSink, hs, himg]
      · rcases hty : img.resourceType with _ | _
        · rcases hgr : img.getResourceStatus with _ | _
          · rcases hdata : img.resourceData with _ | bytes
            · simp [resolveSink, hs, himg, hty, hgr, hdata]
            · exact Or.inl ⟨img.width, img.height, copyPixels img.width img.height bytes,
                by simp [resolveSink, hs, himg, hty, hgr, hdata]⟩
          · simp [resolveSink, hs, himg, hty, hgr]
        · simp [resolveSink, hs, himg, hty]
    · simp [resolveSink, hs]
  · intro env i hf hc hcl hidx hcb hcr hsr hflush
    simp [BrawCli.extract_frame, hf, hc, hcl, hcb, hcr, hsr, hflush, if_neg hidx]
  · intro env i hf hc hcl hidx hcb hcr hsr hflush
    simp [BrawCli.extract_frame, hf, hc, hcl, hcb, hcr, hsr, hflush, if_neg hidx]
  · intro env s hs
    simp [BrawCli.resolveAfterFlush, hs]
  · intro env s hs himg
    simp [BrawCli.resolveAfterFlush, hs, himg]
  · intro env s img hs himg hty
    simp [BrawCli.resolveAfterFlush, hs, himg, hty]
  · intro env s img hs himg hty hres
    rcases hres with hres | hres
    · cases hgr : img.getResourceStatus <;>
        simp_all [BrawCli.resolveAfterFlush]
    · cases hgr : img.getResourceStatus <;>
        simp_all [BrawCli.resolveAfterFlush]
  · intro env s img bytes hs himg hty hgr hdata hwo
    simp [BrawCli.resolveAfterFlush, hs, himg, hty, hgr, hdata, write_ppm, hwo]
  · intro env s img bytes hs himg hty hgr hdata hwo
    simp [BrawCli.resolveAfterFlush, hs, himg, hty, hgr, hdata, write_ppm, hwo]
  · intro env s hwo
    rcases hs : s.error_occurred with _ | _
    · rcases himg : s.processed_image with _ | img
      · simp [BrawCli.resolveAfterFlush, sinkInspectionOutcome, hs, himg]
      · rcases hty : img.resourceType with _ | _
        · rcases hgr : img.getResourceStatus with _ | _
          · rcases hdata : img.resourceData with _ | bytes
            · simp [BrawCli.resolveAfterFlush, sinkInspectionOutcome, hs, himg, hty, hgr, hdata]
            · simp [BrawCli.resolveAfterFlush, sinkInspectionOutcome, hs, himg, hty, hgr, hdata,
                write_ppm, hwo]
          · simp [BrawCli.resolveAfterFlush, sinkInspectionOutcome, hs, himg, hty, hgr]
        · simp [BrawCli.resolveAfterFlush, sinkInspectionOutcome, hs, himg, hty]
    · simp [BrawCli.resolveAfterFlush, sinkInspectionOutcome, hs]

/-- Witness for the amended C1: the all-successful environments of both
variants reach the drain and resolve through the sink inspection. -/
theorem c1_post_drain_resolution_witness :
    (BrawAddon.ExtractFrame envAllOk 0).1 =
      resolveSink
        (BrawAddon.runPipeline envAllOk { processed_image := none, error_occurred := false }).1 ∧
    (BrawCli.extract_frame envCliAllOk 0).1 =
      BrawCli.resolveAfterFlush envCliAllOk
        (BrawCli.runPipeline envCliAllOk
          { processed_image := none, error_occurred := false }).1 :=
  ⟨c1_post_drain_resolution.1 envAllOk 0 rfl rfl rfl (by decide) rfl rfl rfl,
    c1_post_drain_resolution.2.2.2.2.2.2.2.1 envCliAllOk 0 rfl rfl rfl (by decide)
      rfl rfl rfl rfl⟩

/-- C2: for every `frameIndex` outside `[0, frameCount)` (negative or at
least `frameCount`), when the clip opens, the operation resolves
`Failed FrameIndexOutOfRange` with an empty pipeline trace: no read or
decode job is created or submitted.  The index is a signed 64-bit value
and the code compares it against `(long)frame_count`. -/
theorem c2_out_of_range_rejected (env : FrameEnv) (i : Int)
    (hf : env.factoryOk = true) (hc : env.codecStatus = HResult.ok)
    (hcl : env.clipStatus = HResult.ok)
    (_hlo : -(2 ^ 63) ≤ i) (hhi : i < 2 ^ 63)
    (hout : i < 0 ∨ (env.frameCount : Int) ≤ i) :
    BrawAddon.ExtractFrame env i = (Outcome.failed Stage.FrameIndexOutOfRange, []) := by
  have hcond : i < 0 ∨ int64wrap env.frameCount ≤ i := by
    rcases hout with hneg | hge
    · exact Or.inl hneg
    · right
      have h0 : (0 : Int) ≤ i := le_trans (Int.ofNat_nonneg _) hge
      have hfc : (env.frameCount : Int) < 2 ^ 63 := lt_of_le_of_lt hge hhi
      have hfcn : env.frameCount < 2 ^ 63 := by exact_mod_cast hfc
      have hmod : env.frameCount % 2 ^ 64 = env.frameCount :=
        Nat.mod_eq_of_lt (lt_trans hfcn (by norm_num))
      have : int64wrap env.frameCount = (env.frameCount : Int) := by
        unfold int64wrap
        rw [hmod, if_pos hfcn]
      rw [this]
      exact hge
  simp [BrawAddon.ExtractFrame, hf, hc, hcl, if_pos hcond]

/-- Witness for C2: index 5 on a clip of 5 frames is rejected with an
empty trace. -/
theorem c2_out_of_range_rejected_witness :
    BrawAddon.ExtractFrame envAllOk 5 = (Outcome.failed Stage.FrameIndexOutOfRange, []) :=
  c2_out_of_range_rejected envAllOk 5 rfl rfl rfl (by decide) (by decide) (Or.inr (by decide))

/-- Counterexample for C6 as stated: in a run whose read callback
reports failure the session resolves the generic processing failure,
not a distinct `ReadFailed` stage, and is indistinguishable from a run
whose decode/process job failed; no decode job is submitted. -/
theorem c6_read_failure_counterexample :
    (BrawAddon.ExtractFrame envReadFail 0).1 = Outcome.failed Stage.ProcessFailed ∧
    ¬(BrawAddon.ExtractFrame envReadFail 0).1 = Outcome.failed Stage.ReadFailed ∧
    (BrawAddon.ExtractFrame envProcFail 0).1 = (BrawAddon.ExtractFrame envReadFail 0).1 ∧
    Ev.submitDecodeJob ∉ (BrawAddon.ExtractFrame envReadFail 0).2 := by
  decide

/-- C6 amended: if the read-completion callback reports a non-success
status, the session resolves `Failed ProcessFailed` — the generic
processing-error resolution driven by the shared error flag, not a
distinct read-specific stage — and no decode job is submitted. -/
theorem c6_read_failure_resolves_generic (env : FrameEnv) (i : Int)
    (hf : env.factoryOk = true) (hc : env.codecStatus = HResult.ok)
    (hcl : env.clipStatus = HResult.ok)
    (hidx : ¬(i < 0 ∨ int64wrap env.frameCount ≤ i))
    (hcb : env.setCallbackStatus = HResult.ok) (hcr : env.createReadStatus = HResult.ok)
    (hsr : env.submitReadStatus = HResult.ok)
    (hread : env.read.readStatus = HResult.fail) :
    (BrawAddon.ExtractFrame env i).1 = Outcome.failed Stage.ProcessFailed ∧
    Ev.submitDecodeJob ∉ (BrawAddon.ExtractFrame env i).2 := by
  constructor
  · simp [BrawAddon.ExtractFrame, hf, hc, hcl, hcb, hcr, hsr, if_neg hidx,
      BrawAddon.runPipeline, BrawAddon.ReadComplete, decodeSubmitted, hread, resolveSink]
  · simp [BrawAddon.ExtractFrame, hf, hc, hcl, hcb, hcr, hsr, if_neg hidx,
      BrawAddon.runPipeline, BrawAddon.ReadComplete, decodeSubmitted, hread]

/-- Witness for the amended C6: the concrete read-failure environment. -/
theorem c6_read_failure_resolves_generic_witness :
    (BrawAddon.ExtractFrame envReadFail 0).1 = Outcome.failed Stage.ProcessFailed ∧
    Ev.submitDecodeJob ∉ (BrawAddon.ExtractFrame envReadFail 0).2 :=
  c6_read_failure_resolves_generic envReadFail 0 rfl rfl rfl (by decide) rfl rfl rfl rfl

/-- C7: the open phase fails with `FactoryUnavailable` when the factory
cannot be created, `CodecCreateFailed` when the codec cannot be
instantiated, and `ClipOpenFailed` when the path does not resolve to a
valid container; on each failure every handle acquired by earlier
stages is released before the operation returns (the result type admits
no partially-open handle: a failing run carries a `Stage`, never a
`Metadata` value). -/
theorem c7_open_failure_cleanup :
    (∀ env : MetaEnv, env.factoryOk = false →
      extract_metadata env = (Except.error Stage.FactoryUnavailable, [])) ∧
    (∀ env : MetaEnv, env.factoryOk = true → env.codecStatus ≠ HResult.ok →
      extract_metadata env =
        (Except.error Stage.CodecCreateFailed, [Ev.acquireFactory, Ev.releaseFactory])) ∧
    (∀ env : MetaEnv, env.factoryOk = true → env.codecStatus = HResult.ok →
      env.clipStatus ≠ HResult.ok →
      extract_metadata env =
        (Except.error Stage.ClipOpenFailed,
          [Ev.acquireFactory, Ev.acquireCodec, Ev.releaseCodec, Ev.releaseFactory])) ∧
    (∀ (env : MetaEnv) (st : Stage), (extract_metadata env).1 = Except.error st →
      (st = Stage.FactoryUnavailable ∨ st = Stage.CodecCreateFailed ∨
        st = Stage.ClipOpenFailed) ∧
      releasesBalanced (extract_metadata env).2) := by
  refine ⟨?_, ?_, ?_, ?_⟩
  · intro env hf
    simp [extract_metadata, hf]
  · intro env hf hc
    simp [extract_metadata, hf, hc]
  · intro env hf hc hcl
    simp [extract_metadata, hf, hc, hcl]
  · intro env st h
    obtain ⟨fo, cs, cls, fc, w, ht, fr⟩ := env
    cases fo <;> cases cs <;> cases cls <;>
      simp_all [extract_metadata] <;>
      exact ⟨by simp_all, by decide⟩

/-- Witness for C7: concrete runs hitting each of the three open
failures. -/
theorem c7_open_failure_cleanup_witness :
    extract_metadata envMetaNoFactory = (Except.error Stage.FactoryUnavailable, []) ∧
    extract_metadata { envMetaW with codecStatus := HResult.fail } =
      (Except.error Stage.CodecCreateFailed, [Ev.acquireFactory, Ev.releaseFactory]) ∧
    extract_metadata { envMetaW with clipStatus := HResult.fail } =
      (Except.error Stage.ClipOpenFailed,
        [Ev.acquireFactory, Ev.acquireCodec, Ev.releaseCodec, Ev.releaseFactory]) :=
  ⟨c7_open_failure_cleanup.1 envMetaNoFactory rfl,
    c7_open_failure_cleanup.2.1 _ rfl (by decide),
    c7_open_failure_cleanup.2.2.1 _ rfl rfl (by decide)⟩

/-- C8: for every open clip the metadata query reports a duration
recomputed on that query as `frameCount / frameRate` from the values the
getters just returned; a zero frame rate yields the non-finite marker
(`none`) rather than a crash — `extract_metadata` is a total function.
The C `float` arithmetic is modelled by exact rationals, `none` standing
for the non-finite IEEE quotient. -/
theorem c8_duration_recomputed :
    (∀ env : MetaEnv, env.factoryOk = true → env.codecStatus = HResult.ok →
      env.clipStatus = HResult.ok →
      ∃ m, (extract_metadata env).1 = Except.ok m ∧
        m.duration = floatDiv m.frame_count m.frame_rate ∧
        m.frame_count = env.frameCount.getD 0 ∧
        m.frame_rate = env.frameRate.getD 0 ∧
        (m.frame_rate = 0 → m.duration = none) ∧
        (m.frame_rate ≠ 0 → m.duration = some ((m.frame_count : Rat) / m.frame_rate))) ∧
    (∀ fc : Nat, floatDiv fc 0 = none) := by
  constructor
  · intro env hf hc hcl
    refine ⟨{ success := true, frame_count := env.frameCount.getD 0, width := env.width.getD 0,
              height := env.height.getD 0, frame_rate := env.frameRate.getD 0,
              duration := floatDiv (env.frameCount.getD 0) (env.frameRate.getD 0) },
            ?_, rfl, rfl, rfl, ?_, ?_⟩
    · simp [extract_metadata, hf, hc, hcl]
    · intro h0
      have h0' : env.frameRate.getD 0 = 0 := h0
      simp [floatDiv, h0']
    · intro h0
      have h0' : ¬env.frameRate.getD 0 = 0 := h0
      simp [floatDiv, h0']
  · intro fc
    simp [floatDiv]

/-- Witness for C8: a clip reporting 10 frames at rate 24, and the
degenerate zero-rate division. -/
theorem c8_duration_recomputed_witness :
    (∃ m, (extract_metadata envMetaW).1 = Except.ok m ∧
      m.duration = floatDiv m.frame_count m.frame_rate ∧
      m.frame_count = envMetaW.frameCount.getD 0 ∧
      m.frame_rate = envMetaW.frameRate.getD 0 ∧
      (m.frame_rate = 0 → m.duration = none) ∧
      (m.frame_rate ≠ 0 → m.duration = some ((m.frame_count : Rat) / m.frame_rate))) ∧
    floatDiv 10 0 = none :=
  ⟨c8_duration_recomputed.1 envMetaW rfl rfl rfl, c8_duration_recomputed.2 10⟩

/-- C10: after a successful open the metadata operation always reports
`success = true`; the statuses of the four scalar getters are not
inspected, so a failing getter leaves its zero-initialized default in
the reported record instead of turning the result into an error. -/
theorem c10_getter_statuses_ignored (env : MetaEnv)
    (hf : env.factoryOk = true) (hc : env.codecStatus = HResult.ok)
    (hcl : env.clipStatus = HResult.ok) :
    ∃ m, (extract_metadata env).1 = Except.ok m ∧ m.success = true ∧
      m.frame_count = env.frameCount.getD 0 ∧ m.width = env.width.getD 0 ∧
      m.height = env.height.getD 0 ∧ m.frame_rate = env.frameRate.getD 0 ∧
      (env.frameCount = none → m.frame_count = 0) ∧
      (env.width = none → m.width = 0) ∧
      (env.height = none → m.height = 0) ∧
      (env.frameRate = none → m.frame_rate = 0) := by
  refine ⟨{ success := true, frame_count := env.frameCount.getD 0, width := env.width.getD 0,
            height := env.height.getD 0, frame_rate := env.frameRate.getD 0,
            duration := floatDiv (env.frameCount.getD 0) (env.frameRate.getD 0) },
          ?_, rfl, rfl, rfl, rfl, rfl, ?_, ?_, ?_, ?_⟩
  · simp [extract_metadata, hf, hc, hcl]
  all_goals intro h0; simp [h0]

/-- Witness for C10: all four getters fail and the query still reports
`success = true` with zero defaults. -/
theorem c10_getter_statuses_ignored_witness :
    ∃ m, (extract_metadata envMetaGettersFail).1 = Except.ok m ∧ m.success = true ∧
      m.frame_count = envMetaGettersFail.frameCount.getD 0 ∧
      m.width = envMetaGettersFail.width.getD 0 ∧
      m.height = envMetaGettersFail.height.getD 0 ∧
      m.frame_rate = envMetaGettersFail.frameRate.getD 0 ∧
      (envMetaGettersFail.frameCount = none → m.frame_count = 0) ∧
      (envMetaGettersFail.width = none → m.width = 0) ∧
      (envMetaGettersFail.height = none → m.height = 0) ∧
      (envMetaGettersFail.frameRate = none → m.frame_rate = 0) :=
  c10_getter_statuses_ignored envMetaGettersFail rfl rfl rfl

theorem ppmBody_length (data : Nat → Nat) : ∀ n, (ppmBody data n).length = 3 * n := by
  intro n
  induction n with
  | zero => simp [ppmBody]
  | succ m ih =>
      have e : ppmBody data (m + 1) = ppmBody data m ++
          [data ((m * 4 + 0) % 2 ^ 32), data ((m * 4 + 1) % 2 ^ 32),
            data ((m * 4 + 2) % 2 ^ 32)] := rfl
      rw [e, List.length_append, ih]
      simp
      omega

theorem ppmBody_getElem (data : Nat → Nat) :
    ∀ n i, i < n →
      (ppmBody data n)[3 * i]? = some (data ((i * 4 + 0) % 2 ^ 32)) ∧
      (ppmBody data n)[3 * i + 1]? = some (data ((i * 4 + 1) % 2 ^ 32)) ∧
      (ppmBody data n)[3 * i + 2]? = some (data ((i * 4 + 2) % 2 ^ 32)) := by
  intro n
  induction n with
  | zero => intro i h; exact absurd h (Nat.not_lt_zero i)
  | succ m ih =>
      intro i h
      have e : ppmBody data (m + 1) = ppmBody data m ++
          [data ((m * 4 + 0) % 2 ^ 32), data ((m * 4 + 1) % 2 ^ 32),
            data ((m * 4 + 2) % 2 ^ 32)] := rfl
      have hlen := ppmBody_length data m
      by_cases hi : i < m
      · obtain ⟨g0, g1, g2⟩ := ih i hi
        rw [e]
        exact ⟨by rw [List.getElem?_append_left (by omega)]; exact g0,
          by rw [List.getElem?_append_left (by omega)]; exact g1,
          by rw [List.getElem?_append_left (by omega)]; exact g2⟩
      · have him : i = m := by omega
        subst him
        rw [e]
        have hs0 : 3 * i - (ppmBody data i).length = 0 := by omega
        have hs1 : 3 * i + 1 - (ppmBody data i).length = 1 := by omega
        have hs2 : 3 * i + 2 - (ppmBody data i).length = 2 := by omega
        exact ⟨by rw [List.getElem?_append_right (by omega), hs0]; rfl,
          by rw [List.getElem?_append_right (by omega), hs1]; rfl,
          by rw [List.getElem?_append_right (by omega), hs2]; rfl⟩

/-- C9: for a decoded RGBA buffer of the given dimensions, `write_ppm`
emits after the header `"P6\n<width> <height>\n255\n"` exactly the
bytes `data (4*i)`, `data (4*i+1)`, `data (4*i+2)` for each pixel index
`i` in row-major order; every emitted body byte comes from a source
offset that is not congruent to 3 mod 4, so no alpha byte
`data (4*i+3)` is ever written.  The hypothesis keeps the `unsigned
int` products `width*height` and `i*4+2` below `2 ^ 32`. -/
theorem c9_ppm_drops_alpha (width height : Nat) (data : Nat → Nat)
    (hsize : width * height < 2 ^ 30) :
    ∃ body, write_ppm true width height data = some (ppmHeader width height, body) ∧
      body.length = 3 * (width * height) ∧
      (∀ i, i < width * height →
        body[3 * i]? = some (data (i * 4 + 0)) ∧
        body[3 * i + 1]? = some (data (i * 4 + 1)) ∧
        body[3 * i + 2]? = some (data (i * 4 + 2))) ∧
      (∀ j, j < 3 * (width * height) →
        ∃ k, k % 4 ≠ 3 ∧ k = j / 3 * 4 + j % 3 ∧ body[j]? = some (data k)) := by
  have p30 : (2 : Nat) ^ 30 = 1073741824 := by norm_num
  have p32 : (2 : Nat) ^ 32 = 4294967296 := by norm_num
  have hsize' : width * height < 1073741824 := by rw [p30] at hsize; exact hsize
  have hwrap : width * height % 2 ^ 32 = width * height := by rw [p32]; omega
  refine ⟨ppmBody data (width * height), ?_, ppmBody_length data _, ?_, ?_⟩
  · simp only [write_ppm, hwrap]
    simp
  · intro i hi
    obtain ⟨g0, g1, g2⟩ := ppmBody_getElem data (width * height) i hi
    have m0 : (i * 4 + 0) % 2 ^ 32 = i * 4 + 0 := by rw [p32]; omega
    have m1 : (i * 4 + 1) % 2 ^ 32 = i * 4 + 1 := by rw [p32]; omega
    have m2 : (i * 4 + 2) % 2 ^ 32 = i * 4 + 2 := by rw [p32]; omega
    rw [m0] at g0
    rw [m1] at g1
    rw [m2] at g2
    exact ⟨g0, g1, g2⟩
  · intro j hj
    refine ⟨j / 3 * 4 + j % 3, by omega, rfl, ?_⟩
    have hc : j % 3 = 0 ∨ j % 3 = 1 ∨ j % 3 = 2 := by omega
    rcases hc with hc | hc | hc
    · obtain ⟨i, rfl⟩ : ∃ i, j = 3 * i := ⟨j / 3, by omega⟩
      have hi : i < width * height := by omega
      obtain ⟨g0, _, _⟩ := ppmBody_getElem data (width * height) i hi
      have m0 : (i * 4 + 0) % 2 ^ 32 = i * 4 + 0 := by rw [p32]; omega
      rw [m0] at g0
      have hidx : 3 * i / 3 * 4 + 3 * i % 3 = i * 4 + 0 := by omega
      rw [hidx]
      exact g0
    · obtain ⟨i, rfl⟩ : ∃ i, j = 3 * i + 1 := ⟨j / 3, by omega⟩
      have hi : i < width * height := by omega
      obtain ⟨_, g1, _⟩ := ppmBody_getElem data (width * height) i hi
      have m1 : (i * 4 + 1) % 2 ^ 32 = i * 4 + 1 := by rw [p32]; omega
      rw [m1] at g1
      have hidx : (3 * i + 1) / 3 * 4 + (3 * i + 1) % 3 = i * 4 + 1 := by omega
      rw [hidx]
      exact g1
    · obtain ⟨i, rfl⟩ : ∃ i, j = 3 * i + 2 := ⟨j / 3, by omega⟩
      have hi : i < width * height := by omega
      obtain ⟨_, _, g2⟩ := ppmBody_getElem data (width * height) i hi
      have m2 : (i * 4 + 2) % 2 ^ 32 = i * 4 + 2 := by rw [p32]; omega
      rw [m2] at g2
      have hidx : (3 * i + 2) / 3 * 4 + (3 * i + 2) % 3 = i * 4 + 2 := by omega
      rw [hidx]
      exact g2

/-- Witness for C9: a 2x1 buffer. -/
theorem c9_ppm_drops_alpha_witness :
    ∃ body, write_ppm true 2 1 (fun k => k + 10) = some (ppmHeader 2 1, body) ∧
      body.length = 3 * (2 * 1) ∧
      (∀ i, i < 2 * 1 →
        body[3 * i]? = some ((fun k => k + 10) (i * 4 + 0)) ∧
        body[3 * i + 1]? = some ((fun k => k + 10) (i * 4 + 1)) ∧
        body[3 * i + 2]? = some ((fun k => k + 10) (i * 4 + 2))) ∧
      (∀ j, j < 3 * (2 * 1) →
        ∃ k, k % 4 ≠ 3 ∧ k = j / 3 * 4 + j % 3 ∧ body[j]? = some ((fun k => k + 10) k)) :=
  c9_ppm_drops_alpha 2 1 (fun k => k + 10) (by norm_num)

end Braw
